import Mathlib

/-!
# Structured errors of `goservice`

A shallow embedding of the structured-error code of the repository
(`src/errors/errors.go` and `src/errorFactory.go`) together with the properties
proved about it.  The two files call each other (`errors.go` uses `Wrap`,
`errorFactory` and `errCode`; `errorFactory.go` uses `IrisError`, `addParams`
and `PrefixMatches`), so they are embedded as one program.  The mapping from
category to status code (`src/httphandler.go`, `src/httpHandler/irisnet.go`) is
embedded as well.

Modelling conventions.

* A Go `string` is a Lean `String`, read as its sequence of characters
  (`String.data`).  `strings.HasPrefix` is the prefix test on that sequence.
* A Go `map[string]string` is a finite map with unique keys (`StrMap`); a
  variable of map type is `GoMap`, where `none` is the `nil` map.  Reading a
  `nil` map finds no key and ranging over it runs zero iterations.
* A Go value of interface type `error` is a `GoError`: the `nil` interface, a
  `*IrisError`, or any other error, of which the code only ever observes the
  string returned by its `Error()` method.
* `*bool` is `Option Bool` (`none` is the `nil` pointer).
* A `*IrisError` is never the `nil` pointer, and a causal chain is a finite
  tree of values: no error is its own cause.
* A field left out of a Go struct literal has its zero value: `""`, `nil`.
-/

namespace Errors

/-! ## Data model -/

/-- Go `map[string]string` that is not `nil`: a finite map with unique keys. -/
abbrev StrMap := AList (fun _ : String => String)

/-- A variable of type `map[string]string`; `none` is the `nil` map. -/
abbrev GoMap := Option StrMap

mutual
/-- The struct `IrisError` (errors.go 28-45), fields in the order of the source:
`TypeCode`, `Code`, `Message`, `Params`, `IsRetryable`, `cause`. -/
inductive IrisError where
  | mk (TypeCode Code Message : String) (Params : GoMap)
       (IsRetryable : Option Bool) (cause : GoError)
/-- A value of the Go interface type `error`: `nil`, some error that is not a
`*IrisError` (known by the string its `Error()` returns), or a `*IrisError`. -/
inductive GoError where
  | nil
  | other (msg : String)
  | iris (e : IrisError)
end

def IrisError.TypeCode : IrisError → String
  | .mk t _ _ _ _ _ => t

def IrisError.Code : IrisError → String
  | .mk _ c _ _ _ _ => c

def IrisError.Message : IrisError → String
  | .mk _ _ m _ _ _ => m

def IrisError.Params : IrisError → GoMap
  | .mk _ _ _ p _ _ => p

def IrisError.IsRetryable : IrisError → Option Bool
  | .mk _ _ _ _ r _ => r

def IrisError.cause : IrisError → GoError
  | .mk _ _ _ _ _ c => c

/-- Field update `err.Code = code`. -/
def IrisError.setCode : IrisError → String → IrisError
  | .mk t _ m p r c, code => .mk t code m p r c

/-- Field update `err.IsRetryable = b`. -/
def IrisError.setIsRetryable : IrisError → Option Bool → IrisError
  | .mk t c m p _ cause, r => .mk t c m p r cause

/-- Field update `err.Params = params`. -/
def IrisError.setParams : IrisError → GoMap → IrisError
  | .mk t c m _ r cause, p => .mk t c m p r cause

/-- Field update `newErr.cause = err`. -/
def IrisError.setCause : IrisError → GoError → IrisError
  | .mk t c m p r _, cause => .mk t c m p r cause

/-! ## Strings and maps of the Go runtime -/

/-- Go `strings.HasPrefix(s, pre)`. -/
def HasPrefix (s pre : String) : Bool := pre.data.isPrefixOf s.data

/-- Go `strings.Join(elems, sep)`. -/
def Join : List String → String → String
  | [], _ => ""
  | [a], _ => a
  | a :: b :: rest, sep => a ++ sep ++ Join (b :: rest) sep

/-- Go `strings.Contains(s, substr)`. -/
def Contains (s substr : String) : Bool := decide (substr.data <:+: s.data)

/-- The key/value pairs visited by `for k, v := range m`. -/
def rangeOf : GoMap → List (Sigma fun _ : String => String)
  | none => []
  | some m => m.entries

/-- Reading `m[k]` with the comma-ok form: `none` when the key is absent. -/
def lookupIn (m : GoMap) (k : String) : Option String :=
  match m with
  | none => none
  | some a => a.lookup k

/-- The loop `for k, v := range src { dst[k] = v }`. -/
def copyInto (dst : StrMap) (src : GoMap) : StrMap :=
  (rangeOf src).foldl (fun acc kv => acc.insert kv.1 kv.2) dst

/-! ## errors.go: constants -/

def ERROR_BAD_REQUEST : String := "bad_request"
def ERROR_BAD_RESPONSE : String := "bad_response"
def ERROR_FORBIDDEN : String := "forbidden"
def ERROR_INTERNAL_SERVICE : String := "internal_service"
def ERROR_NOT_FOUND : String := "not_found"
def ERROR_PRECONDITION_FAILED : String := "precondition_failed"
def ERROR_TIMEOUT : String := "timeout"
def ERROR_UNAUTHORIZED : String := "unauthorized"
def ERROR_UNKNOWN : String := "unknown"

def retryableCodes : List String :=
  [ERROR_INTERNAL_SERVICE, ERROR_TIMEOUT, ERROR_UNKNOWN]

/-! ## errors.go and errorFactory.go: operations -/

/-- The function `addParams` (errors.go 167-183).  The struct literal it returns
sets `Code`, `Message`, `Params` and `IsRetryable` only. -/
def addParams (err : IrisError) (params : GoMap) : IrisError :=
  let copiedParams := copyInto (copyInto ∅ err.Params) params
  .mk "" err.Code err.Message (some copiedParams) err.IsRetryable .nil

/-- The method `(*IrisError).PrefixMatches` (errors.go 196-200). -/
def IrisError.PrefixMatches (p : IrisError) (prefixParts : List String) : Bool :=
  HasPrefix p.Code (Join prefixParts ".")

/-- The free function `PrefixMatches` (errors.go 218-224) at an argument of
static type `*IrisError`, as `errorFactory` calls it: `Wrap(err, nil)` then
takes the `*IrisError` case of the type switch in `WrapWithCode`, which is
`addParams(err, nil)`.  (`PrefixMatches_iris` below shows that the general
function agrees.) -/
def PrefixMatchesIris (err : IrisError) (prefixParts : List String) : Bool :=
  (addParams err none).PrefixMatches prefixParts

/-- The function `errorFactory` (errorFactory.go 82-112). -/
def errorFactory (typecode code message : String) (params : GoMap) : IrisError :=
  let err := IrisError.mk typecode ERROR_UNKNOWN message (some ∅) none .nil
  let err :=
    if code.length > 0 then
      let err := (err.setCode code).setIsRetryable (some false)
      retryableCodes.foldl
        (fun err c => if PrefixMatchesIris err [c] then err.setIsRetryable (some true) else err)
        err
    else err
  match params with
  | some p => err.setParams (some p)
  | none => err

/-- The function `errCode` (errorFactory.go 114-122). -/
def errCode (pre code : String) : String :=
  if code = "" then pre
  else if pre = "" then code
  else Join [pre, code] "."

/-- The function `WrapWithCode` (errorFactory.go 19-29). -/
def WrapWithCode (err : GoError) (params : GoMap) (code : String) : GoError :=
  match err with
  | .nil => .nil
  | .iris e => .iris (addParams e params)
  | .other msg => .iris (errorFactory code code msg params)

/-- The function `Wrap` (errorFactory.go 13-15). -/
def Wrap (err : GoError) (params : GoMap) : GoError :=
  WrapWithCode err params ERROR_INTERNAL_SERVICE

/-- The free function `PrefixMatches` (errors.go 218-224). -/
def PrefixMatches (err : GoError) (prefixParts : List String) : Bool :=
  match Wrap err none with
  | .iris iriserr => iriserr.PrefixMatches prefixParts
  | _ => false

/-- The method `(*IrisError).Retryable` (errors.go 118-128). -/
def IrisError.Retryable (p : IrisError) : Bool :=
  match p.IsRetryable with
  | some b => b
  | none => retryableCodes.any (fun c => Errors.PrefixMatches (.iris p) [c])

/-- The function `New` (errors.go 139-141). -/
def New (code message : String) (params : GoMap) : IrisError :=
  errorFactory code code message params

def InternalService (code message : String) (params : GoMap) : IrisError :=
  errorFactory ERROR_INTERNAL_SERVICE (errCode ERROR_INTERNAL_SERVICE code) message params

def BadRequest (code message : String) (params : GoMap) : IrisError :=
  errorFactory ERROR_BAD_REQUEST (errCode ERROR_BAD_REQUEST code) message params

def BadResponse (code message : String) (params : GoMap) : IrisError :=
  errorFactory ERROR_BAD_RESPONSE (errCode ERROR_BAD_RESPONSE code) message params

def Timeout (code message : String) (params : GoMap) : IrisError :=
  errorFactory ERROR_TIMEOUT (errCode ERROR_TIMEOUT code) message params

def NotFound (code message : String) (params : GoMap) : IrisError :=
  errorFactory ERROR_NOT_FOUND (errCode ERROR_NOT_FOUND code) message params

def Forbidden (code message : String) (params : GoMap) : IrisError :=
  errorFactory ERROR_FORBIDDEN (errCode ERROR_FORBIDDEN code) message params

def Unauthorized (code message : String) (params : GoMap) : IrisError :=
  errorFactory ERROR_UNAUTHORIZED (errCode ERROR_UNAUTHORIZED code) message params

def PreconditionFailed (code message : String) (params : GoMap) : IrisError :=
  errorFactory ERROR_PRECONDITION_FAILED (errCode ERROR_PRECONDITION_FAILED code) message params

/-- The function `NewInternalWithCause` (errors.go 149-164). -/
def NewInternalWithCause (err : GoError) (message : String) (params : GoMap)
    (subCode : String) : IrisError :=
  let newErr := errorFactory ERROR_INTERNAL_SERVICE
    (errCode ERROR_INTERNAL_SERVICE subCode) message params
  let newErr := newErr.setCause err
  match err with
  | .iris terr =>
    match terr.IsRetryable with
    | some b => newErr.setIsRetryable (some b)
    | none => newErr
  | _ => newErr

/-- The function `Augment` (errors.go 229-248); `context` is the message. -/
def Augment (err : GoError) (context : String) (params : GoMap) : GoError :=
  match err with
  | .nil => .nil
  | .iris e =>
    let withMergedParams := addParams e params
    .iris (.mk "" e.Code context withMergedParams.Params e.IsRetryable (.iris e))
  | .other msg => .iris (NewInternalWithCause (.other msg) context params "")

/-- The function `Propagate` (errors.go 256-266). -/
def Propagate (err : GoError) : GoError :=
  match err with
  | .nil => .nil
  | .iris e => .iris e
  | .other msg => .iris (NewInternalWithCause (.other msg) msg none "")

/-- The method `(*IrisError).Unwrap` (errors.go 89-91). -/
def IrisError.Unwrap (p : IrisError) : GoError := p.cause

/-- The function `Is` (errors.go 275-289). -/
def Is : GoError → List String → Bool
  | .iris (.mk t c m p r cause), code =>
    if (IrisError.mk t c m p r cause).PrefixMatches code then true
    else
      match cause with
      | .nil => false
      | next => Is next code
  | _, _ => false

/-- The method `legacyErrString` (errors.go 74-85), on a receiver that is not
the `nil` pointer. -/
def IrisError.legacyErrString (p : IrisError) : String :=
  if p.Message = "" then p.Code
  else if p.Code = "" then p.Message
  else p.Code ++ ": " ++ p.Message

/-- The `for next != nil` loop of `Error` (errors.go 60-70): `output` is the
text written to the builder so far, the result is the builder at loop exit. -/
def errorLoop : String → GoError → String
  | output, .nil => output
  | output, .other msg => output ++ ": " ++ msg
  | output, .iris (.mk _ _ m _ _ cause) => errorLoop (output ++ ": " ++ m) cause

/-- The method `(*IrisError).Error` (errors.go 50-72). -/
def IrisError.Error (p : IrisError) : String :=
  match p.cause with
  | .nil => p.legacyErrString
  | _ => errorLoop p.Code (.iris p)

/-- The method `(*IrisError).Matches` (errors.go 188-190). -/
def IrisError.Matches (p : IrisError) (s : String) : Bool :=
  Contains p.Error s

/-- The free function `Matches` (errors.go 205-211). -/
def Matches (err : GoError) (s : String) : Bool :=
  match Wrap err none with
  | .iris iriserr => iriserr.Matches s
  | _ => false

/-! ## httphandler.go and httpHandler/irisnet.go: status codes -/

/-- Go `http.StatusBadRequest`. -/
def StatusBadRequest : Nat := 400

/-- Go `http.StatusUnauthorized`. -/
def StatusUnauthorized : Nat := 401

/-- Go `http.StatusForbidden`. -/
def StatusForbidden : Nat := 403

/-- Go `http.StatusNotFound`. -/
def StatusNotFound : Nat := 404

/-- Go `http.StatusNotAcceptable`. -/
def StatusNotAcceptable : Nat := 406

/-- Go `http.StatusPreconditionFailed`. -/
def StatusPreconditionFailed : Nat := 412

/-- Go `http.StatusInternalServerError`. -/
def StatusInternalServerError : Nat := 500

/-- Go `http.StatusGatewayTimeout`. -/
def StatusGatewayTimeout : Nat := 504

namespace Goservice

/-- Modelled from the spec: the constant `ERROR_BAD_REQUEST` of package
`goservice`, whose declaration is not among the sources. -/
def ERROR_BAD_REQUEST : String := "bad_request"

/-- Modelled from the spec: the constant `ERROR_BAD_RESPONSE` of package
`goservice`, whose declaration is not among the sources. -/
def ERROR_BAD_RESPONSE : String := "bad_response"

/-- Modelled from the spec: the constant `ERROR_FORBIDDEN` of package
`goservice`, whose declaration is not among the sources. -/
def ERROR_FORBIDDEN : String := "forbidden"

/-- Modelled from the spec: the constant `ERROR_INTERNAL_SERVICE` of package
`goservice`, whose declaration is not among the sources. -/
def ERROR_INTERNAL_SERVICE : String := "internal_service"

/-- Modelled from the spec: the constant `ERROR_NOT_FOUND` of package
`goservice`, whose declaration is not among the sources. -/
def ERROR_NOT_FOUND : String := "not_found"

/-- Modelled from the spec: the constant `ERROR_PRECONDITION_FAILED` of package
`goservice`, whose declaration is not among the sources. -/
def ERROR_PRECONDITION_FAILED : String := "precondition_failed"

/-- Modelled from the spec: the constant `ERROR_TIMEOUT` of package
`goservice`, whose declaration is not among the sources. -/
def ERROR_TIMEOUT : String := "timeout"

/-- Modelled from the spec: the constant `ERROR_UNAUTHORIZED` of package
`goservice`, whose declaration is not among the sources. -/
def ERROR_UNAUTHORIZED : String := "unauthorized"

/-- The map `mapErrorStatusToHttp` of package `goservice` (httphandler.go
11-24), as its key/value pairs in the order of the literal. -/
def mapErrorStatusToHttp : List (String × Nat) :=
  [(ERROR_BAD_REQUEST, StatusBadRequest),
   (ERROR_BAD_RESPONSE, StatusNotAcceptable),
   (ERROR_FORBIDDEN, StatusForbidden),
   (ERROR_INTERNAL_SERVICE, StatusInternalServerError),
   (ERROR_NOT_FOUND, StatusNotFound),
   (ERROR_PRECONDITION_FAILED, StatusPreconditionFailed),
   (ERROR_TIMEOUT, StatusGatewayTimeout),
   (ERROR_UNAUTHORIZED, StatusUnauthorized)]

/-- The function `ErrorCodeToStatusCode` of package `goservice`
(httphandler.go 26-32). -/
def ErrorCodeToStatusCode (errorCode : String) : Nat :=
  match mapErrorStatusToHttp.lookup errorCode with
  | some statusCode => statusCode
  | none => StatusInternalServerError

end Goservice

namespace HttpHandler

/-- The map `mapErrorStatusToHttp` of package `httpHandler`
(httpHandler/irisnet.go 13-26), keyed by the constants of package `errors`. -/
def mapErrorStatusToHttp : List (String × Nat) :=
  [(Errors.ERROR_BAD_REQUEST, StatusBadRequest),
   (Errors.ERROR_BAD_RESPONSE, StatusNotAcceptable),
   (Errors.ERROR_FORBIDDEN, StatusForbidden),
   (Errors.ERROR_INTERNAL_SERVICE, StatusInternalServerError),
   (Errors.ERROR_NOT_FOUND, StatusNotFound),
   (Errors.ERROR_PRECONDITION_FAILED, StatusPreconditionFailed),
   (Errors.ERROR_TIMEOUT, StatusGatewayTimeout),
   (Errors.ERROR_UNAUTHORIZED, StatusUnauthorized)]

/-- The function `ErrorCodeToStatusCode` of package `httpHandler`
(httpHandler/irisnet.go 28-34). -/
def ErrorCodeToStatusCode (errorCode : String) : Nat :=
  match mapErrorStatusToHttp.lookup errorCode with
  | some statusCode => statusCode
  | none => StatusInternalServerError

end HttpHandler

/-- The eight categories that have an entry in the status map. -/
def mappedCategories : List String :=
  ["bad_request", "bad_response", "forbidden", "internal_service", "not_found",
   "precondition_failed", "timeout", "unauthorized"]

/-! ## Reference notions used to state the properties -/

/-- Whether `code` has one of the default-retryable categories as a string
prefix. -/
def hasRetryablePrefix (code : String) : Bool :=
  retryableCodes.any (fun c => HasPrefix code c)

/-- Whether `code` equals the category `cat` or starts with `cat` followed by a
dot. -/
def hasDottedPrefix (code cat : String) : Bool :=
  decide (code = cat) || HasPrefix code (cat ++ ".")

/-- The categories that the specification lists as not retryable by default. -/
def nonRetryableCategories : List String :=
  [ERROR_BAD_REQUEST, ERROR_FORBIDDEN, ERROR_NOT_FOUND, ERROR_PRECONDITION_FAILED,
   ERROR_UNAUTHORIZED]

/-- Overlay of two contexts read at key `k`: the value of `upper` when it has
the key, else the value of `lower`. -/
def overlayAt (lower upper : GoMap) (k : String) : Option String :=
  match lookupIn upper k with
  | some v => some v
  | none => lookupIn lower k

/-- The keys of a context; a `nil` map has none. -/
def keysOf : GoMap → List String
  | none => []
  | some m => m.keys

/-- The structured links met when walking the causal chain from `err` through
successive causes, up to the first link that is `nil` or not structured. -/
def chainLinks : GoError → List IrisError
  | .iris (.mk t c m p r cause) => .mk t c m p r cause :: chainLinks cause
  | _ => []

/-- The link at which that walk stops: `nil` or an error that is not structured. -/
def chainEnd : GoError → GoError
  | .iris (.mk _ _ _ _ _ cause) => chainEnd cause
  | e => e

/-- Concatenation of a list of strings, in order. -/
def concatAll : List String → String
  | [] => ""
  | a :: rest => a ++ concatAll rest

/-- Reference rendering of a structured error, following the wording of the
specification of `Error()`. -/
def referenceRendering (p : IrisError) : String :=
  match p.cause with
  | .nil =>
    if p.Message = "" then p.Code
    else if p.Code = "" then p.Message
    else p.Code ++ ": " ++ p.Message
  | _ =>
    p.Code ++ concatAll ((chainLinks (.iris p)).map (fun l => ": " ++ l.Message)) ++
      (match chainEnd (.iris p) with
       | .other msg => ": " ++ msg
       | _ => "")

/-- The message of every link of a chain, outermost first: the message field of
a structured link, the native message of a final error that is not structured. -/
def chainMessages : GoError → List String
  | .nil => []
  | .other msg => [msg]
  | .iris (.mk _ _ m _ _ cause) => m :: chainMessages cause

/-- The nine public constructors of structured errors, `New` first. -/
def constructors : List (String → String → GoMap → IrisError) :=
  [New, BadRequest, BadResponse, Forbidden, InternalService, NotFound,
   PreconditionFailed, Timeout, Unauthorized]

/-- The eight category constructors, each with the category it stands for. -/
def categoryConstructors : List (String × (String → String → GoMap → IrisError)) :=
  [(ERROR_BAD_REQUEST, BadRequest), (ERROR_BAD_RESPONSE, BadResponse),
   (ERROR_FORBIDDEN, Forbidden), (ERROR_INTERNAL_SERVICE, InternalService),
   (ERROR_NOT_FOUND, NotFound), (ERROR_PRECONDITION_FAILED, PreconditionFailed),
   (ERROR_TIMEOUT, Timeout), (ERROR_UNAUTHORIZED, Unauthorized)]

/-- The structured errors that the library produces: the results of `New`, of
the category constructors and of `NewInternalWithCause`, and the results of
`Wrap`, `WrapWithCode`, `Propagate` and `Augment` applied to an error that is
not structured or to a structured error that the library produced. -/
inductive Produced : IrisError → Prop
  | byNew (c m : String) (p : GoMap) : Produced (New c m p)
  | byCategory (cf : String × (String → String → GoMap → IrisError))
      (h : cf ∈ categoryConstructors) (s m : String) (p : GoMap) : Produced (cf.2 s m p)
  | byInternal (err : GoError) (m : String) (p : GoMap) (sub : String) :
      Produced (NewInternalWithCause err m p sub)
  | wrapPlain (msg : String) (ctx : GoMap) (r : IrisError)
      (h : Wrap (.other msg) ctx = .iris r) : Produced r
  | wrapProduced (e : IrisError) (he : Produced e) (ctx : GoMap) (r : IrisError)
      (h : Wrap (.iris e) ctx = .iris r) : Produced r
  | wrapWithCodePlain (msg : String) (ctx : GoMap) (c : String) (r : IrisError)
      (h : WrapWithCode (.other msg) ctx c = .iris r) : Produced r
  | wrapWithCodeProduced (e : IrisError) (he : Produced e) (ctx : GoMap) (c : String)
      (r : IrisError) (h : WrapWithCode (.iris e) ctx c = .iris r) : Produced r
  | propagatePlain (msg : String) (r : IrisError)
      (h : Propagate (.other msg) = .iris r) : Produced r
  | propagateProduced (e : IrisError) (he : Produced e) (r : IrisError)
      (h : Propagate (.iris e) = .iris r) : Produced r
  | augmentPlain (msg m : String) (ctx : GoMap) (r : IrisError)
      (h : Augment (.other msg) m ctx = .iris r) : Produced r
  | augmentProduced (e : IrisError) (he : Produced e) (m : String) (ctx : GoMap)
      (r : IrisError) (h : Augment (.iris e) m ctx = .iris r) : Produced r

/-! ## Concrete values used in the examples -/

def sampleIdCtx : GoMap := some ((∅ : StrMap).insert "id" "42")

def sampleRequestCtx : GoMap := some ((∅ : StrMap).insert "request_id" "r1")

def sampleMergedCtx : GoMap :=
  some (((∅ : StrMap).insert "id" "42").insert "request_id" "r1")

/-- The error `NotFound("user", "no such user", {"id": "42"})`. -/
def sampleNotFound : IrisError := NotFound "user" "no such user" sampleIdCtx

/-- The result of `Augment(sampleNotFound, "while loading profile",
{"request_id": "r1"})`. -/
def sampleAugmented : GoError :=
  Augment (.iris sampleNotFound) "while loading profile" sampleRequestCtx

/-- The error `Propagate(errors.New("disk full"))`, unpacked. -/
def sampleDiskFull : IrisError :=
  NewInternalWithCause (.other "disk full") "disk full" none ""

/-! ## Basic facts about the embedding -/

theorem lookup_foldl_insert (l : List (Sigma fun _ : String => String)) (hl : l.NodupKeys)
    (acc : StrMap) (k : String) :
    (l.foldl (fun acc kv => acc.insert kv.1 kv.2) acc).lookup k =
      match l.dlookup k with
      | some v => some v
      | none => acc.lookup k := by
  induction l generalizing acc with
  | nil => simp
  | cons kv t ih =>
    obtain ⟨a, b⟩ := kv
    rw [List.nodupKeys_cons] at hl
    simp only [List.foldl_cons]
    rw [ih hl.2]
    by_cases h : k = a
    · subst h
      have : t.dlookup k = none := List.dlookup_eq_none.mpr hl.1
      simp [this]
    · have h1 : k ≠ (⟨a, b⟩ : Sigma fun _ : String => String).1 := h
      rw [List.dlookup_cons_ne t ⟨a, b⟩ h1, AList.lookup_insert_ne h]

theorem lookup_copyInto (dst : StrMap) (src : GoMap) (k : String) :
    (copyInto dst src).lookup k =
      match lookupIn src k with
      | some v => some v
      | none => dst.lookup k := by
  cases src with
  | none => simp [copyInto, rangeOf, lookupIn]
  | some m =>
    simp only [copyInto, rangeOf, lookupIn]
    rw [lookup_foldl_insert _ m.nodupKeys]
    rfl

theorem lookup_merged (old new : GoMap) (k : String) :
    (copyInto (copyInto ∅ old) new).lookup k = overlayAt old new k := by
  rw [lookup_copyInto, lookup_copyInto]
  unfold overlayAt
  cases hn : lookupIn new k with
  | some v => rfl
  | none =>
    cases ho : lookupIn old k with
    | some v => rfl
    | none => simp

theorem HasPrefix_iff (s pre : String) : HasPrefix s pre = true ↔ pre.data <+: s.data := by
  unfold HasPrefix
  exact List.isPrefixOf_iff_prefix

theorem HasPrefix_of_dotted {code cat : String} (h : hasDottedPrefix code cat = true) :
    HasPrefix code cat = true := by
  unfold hasDottedPrefix at h
  rw [Bool.or_eq_true] at h
  rw [HasPrefix_iff]
  rcases h with h | h
  · have := of_decide_eq_true h
    subst this
    exact List.prefix_refl _
  · rw [HasPrefix_iff, String.data_append] at h
    exact (List.prefix_append _ _).trans h

theorem length_pos_of_ne_empty {c : String} (h : c ≠ "") : c.length > 0 := by
  rcases c with ⟨d⟩
  cases d with
  | nil => exact absurd rfl h
  | cons a t => simp [String.length]

theorem Join_cons (a : String) (rest : List String) (sep : String) :
    Join (a :: rest) sep = if rest = [] then a else a ++ sep ++ Join rest sep := by
  cases rest <;> simp [Join]

theorem PrefixMatchesIris_eq (e : IrisError) (ps : List String) :
    PrefixMatchesIris e ps = HasPrefix e.Code (Join ps ".") := by
  cases e; rfl

/-- The free function `PrefixMatches` at a `*IrisError` is the prefix test on its
code, which is what `errorFactory` uses through `PrefixMatchesIris`. -/
theorem PrefixMatches_iris (e : IrisError) (ps : List String) :
    PrefixMatches (.iris e) ps = PrefixMatchesIris e ps ∧
      PrefixMatches (.iris e) ps = HasPrefix e.Code (Join ps ".") := by
  cases e; exact ⟨rfl, rfl⟩

theorem Retryable_eq (p : IrisError) :
    p.Retryable =
      match p.IsRetryable with
      | some b => b
      | none => hasRetryablePrefix p.Code := by
  unfold IrisError.Retryable hasRetryablePrefix
  cases p.IsRetryable with
  | some b => rfl
  | none =>
    simp only [(PrefixMatches_iris _ _).2]
    rfl

theorem Retryable_of_flag {e : IrisError} {b : Bool} (h : e.IsRetryable = some b) :
    e.Retryable = b := by
  rw [Retryable_eq, h]

theorem IsRetryable_setIsRetryable (e : IrisError) (r : Option Bool) :
    (e.setIsRetryable r).IsRetryable = r := by
  cases e; rfl

/-- The value built by `errorFactory`, field by field. -/
theorem errorFactory_eq (t c m : String) (p : GoMap) :
    errorFactory t c m p =
      .mk t (if c.length > 0 then c else ERROR_UNKNOWN) m
        (some (match p with
               | some a => a
               | none => ∅))
        (if c.length > 0 then some (hasRetryablePrefix c) else none) .nil := by
  unfold errorFactory hasRetryablePrefix retryableCodes
  by_cases hc : c.length > 0
  · simp only [hc, if_true, List.foldl, PrefixMatchesIris_eq, IrisError.setCode,
      IrisError.setIsRetryable, IrisError.Code, Join, List.any]
    cases h1 : HasPrefix c ERROR_INTERNAL_SERVICE <;> cases h2 : HasPrefix c ERROR_TIMEOUT <;>
      cases h3 : HasPrefix c ERROR_UNKNOWN <;> cases p <;>
      simp [IrisError.setIsRetryable, IrisError.setParams, IrisError.Code, h1, h2, h3]
  · cases p <;> simp [hc, IrisError.setParams]

theorem errorFactory_TypeCode (t c m : String) (p : GoMap) :
    (errorFactory t c m p).TypeCode = t := by
  rw [errorFactory_eq]; rfl

theorem errorFactory_Code (t c m : String) (p : GoMap) :
    (errorFactory t c m p).Code = if c.length > 0 then c else ERROR_UNKNOWN := by
  rw [errorFactory_eq]; rfl

theorem errorFactory_Message (t c m : String) (p : GoMap) :
    (errorFactory t c m p).Message = m := by
  rw [errorFactory_eq]; rfl

theorem errorFactory_IsRetryable (t c m : String) (p : GoMap) :
    (errorFactory t c m p).IsRetryable =
      if c.length > 0 then some (hasRetryablePrefix c) else none := by
  rw [errorFactory_eq]; rfl

theorem errorFactory_cause (t c m : String) (p : GoMap) :
    (errorFactory t c m p).cause = .nil := by
  rw [errorFactory_eq]; rfl

theorem errorFactory_Retryable (t c m : String) (p : GoMap) :
    (errorFactory t c m p).Retryable = hasRetryablePrefix (errorFactory t c m p).Code := by
  rw [Retryable_eq, errorFactory_eq]
  by_cases hc : c.length > 0
  · simp [IrisError.IsRetryable, IrisError.Code, hc]
  · simp [IrisError.IsRetryable, IrisError.Code, hc]

theorem errCode_eq (pre code : String) (hpre : pre.length > 0) :
    errCode pre code = if code = "" then pre else pre ++ "." ++ code := by
  unfold errCode
  by_cases hc : code = ""
  · simp [hc]
  · have hp : pre ≠ "" := by
      rintro rfl
      simp at hpre
    simp [hc, hp, Join]

theorem errCode_length_pos (pre code : String) (hpre : pre.length > 0) :
    (errCode pre code).length > 0 := by
  rw [errCode_eq pre code hpre]
  by_cases hc : code = ""
  · simp [hc, hpre]
  · simp only [hc, if_false, String.length_append]
    omega

theorem HasPrefix_errCode (pre code : String) (hpre : pre.length > 0) :
    HasPrefix (errCode pre code) pre = true := by
  rw [errCode_eq pre code hpre, HasPrefix_iff]
  by_cases hc : code = ""
  · simp [hc]
  · simp only [hc, if_false, String.data_append, List.append_assoc]
    exact List.prefix_append _ _

theorem constructors_factory {f : String → String → GoMap → IrisError} (hf : f ∈ constructors)
    (s m : String) (p : GoMap) : ∃ t c, f s m p = errorFactory t c m p := by
  simp only [constructors, List.mem_cons, List.mem_singleton, List.not_mem_nil, or_false] at hf
  rcases hf with h | h | h | h | h | h | h | h | h <;> subst h <;> exact ⟨_, _, rfl⟩

theorem categoryConstructors_factory {cf : String × (String → String → GoMap → IrisError)}
    (h : cf ∈ categoryConstructors) :
    cf.1.length > 0 ∧ ∀ s m p, cf.2 s m p = errorFactory cf.1 (errCode cf.1 s) m p := by
  simp only [categoryConstructors, List.mem_cons, List.mem_singleton, List.not_mem_nil,
    or_false] at h
  rcases h with h | h | h | h | h | h | h | h <;> subst h <;>
    exact ⟨by decide, fun _ _ _ => rfl⟩

theorem retryable_of_HasPrefix {code cat : String} (hcat : cat ∈ retryableCodes)
    (h : HasPrefix code cat = true) : hasRetryablePrefix code = true := by
  unfold hasRetryablePrefix
  rw [List.any_eq_true]
  exact ⟨cat, hcat, h⟩

theorem not_retryable_of_HasPrefix {code cat : String} (hcat : cat ∈ nonRetryableCategories)
    (h : HasPrefix code cat = true) : hasRetryablePrefix code = false := by
  rw [← Bool.not_eq_true]
  unfold hasRetryablePrefix
  rw [List.any_eq_true]
  rintro ⟨c, hc, h2⟩
  rw [HasPrefix_iff] at h h2
  have h3 := List.prefix_or_prefix_of_prefix h h2
  simp only [nonRetryableCategories, retryableCodes, List.mem_cons, List.mem_singleton,
    List.not_mem_nil, or_false] at hcat hc
  rcases hcat with rfl | rfl | rfl | rfl | rfl <;> rcases hc with rfl | rfl | rfl <;>
    revert h3 <;> decide

theorem NewInternalWithCause_flag (e : IrisError) (b : Bool) (h : e.IsRetryable = some b)
    (m : String) (ctx : GoMap) (sub : String) :
    (NewInternalWithCause (.iris e) m ctx sub).IsRetryable = some b := by
  simp only [NewInternalWithCause, h, IsRetryable_setIsRetryable]

theorem BadRequest_flag (s m : String) (p : GoMap) :
    (BadRequest s m p).IsRetryable = some false := by
  have hpos : ERROR_BAD_REQUEST.length > 0 := by decide
  unfold BadRequest
  rw [errorFactory_IsRetryable, if_pos (errCode_length_pos _ _ hpos)]
  congr 1
  exact not_retryable_of_HasPrefix (by simp [nonRetryableCategories])
    (HasPrefix_errCode _ s hpos)

theorem Is_iris (t c m : String) (p : GoMap) (r : Option Bool) (cause : GoError)
    (cs : List String) :
    Is (.iris (.mk t c m p r cause)) cs = (HasPrefix c (Join cs ".") || Is cause cs) := by
  cases cause <;> simp [Is, IrisError.PrefixMatches, IrisError.Code]

theorem Is_iff_chain : ∀ (err : GoError) (cs : List String),
    Is err cs = true ↔ ∃ l, l ∈ chainLinks err ∧ l.PrefixMatches cs = true
  | .nil, cs => by simp [Is, chainLinks]
  | .other _, cs => by simp [Is, chainLinks]
  | .iris (.mk t c m p r cause), cs => by
    have ih := Is_iff_chain cause cs
    rw [Is_iris, Bool.or_eq_true, ih]
    simp only [chainLinks, List.mem_cons]
    constructor
    · rintro (h | ⟨l, hl, h⟩)
      · exact ⟨_, Or.inl rfl, h⟩
      · exact ⟨l, Or.inr hl, h⟩
    · rintro ⟨l, rfl | hl, h⟩
      · exact Or.inl h
      · exact Or.inr ⟨l, hl, h⟩

theorem errorLoop_eq : ∀ (out : String) (err : GoError),
    errorLoop out err =
      out ++ concatAll ((chainLinks err).map (fun l => ": " ++ l.Message)) ++
        (match chainEnd err with
         | .other msg => ": " ++ msg
         | _ => "")
  | out, .nil => by simp [errorLoop, chainLinks, chainEnd, concatAll]
  | out, .other msg => by
    simp [errorLoop, chainLinks, chainEnd, concatAll, String.append_assoc]
  | out, .iris (.mk t c m p r cause) => by
    have ih := errorLoop_eq (out ++ ": " ++ m) cause
    have hm : (IrisError.mk t c m p r cause).Message = m := rfl
    simp only [errorLoop, chainLinks, chainEnd, List.map_cons, concatAll, hm]
    rw [ih]
    simp only [String.append_assoc]

theorem chainMessages_eq_nil {err : GoError} : chainMessages err = [] ↔ err = .nil := by
  cases err with
  | nil => simp [chainMessages]
  | other msg => simp [chainMessages]
  | iris e => cases e; simp [chainMessages]

theorem errorLoop_messages : ∀ (out : String) (err : GoError), err ≠ .nil →
    errorLoop out err = out ++ ": " ++ Join (chainMessages err) ": "
  | out, .nil, h => absurd rfl h
  | out, .other msg, _ => by simp [errorLoop, chainMessages, Join]
  | out, .iris (.mk t c m p r cause), _ => by
    simp only [errorLoop, chainMessages, Join_cons]
    by_cases hc : cause = .nil
    · subst hc
      simp [errorLoop, chainMessages]
    · have hne : chainMessages cause ≠ [] := fun h => hc (chainMessages_eq_nil.mp h)
      rw [errorLoop_messages _ cause hc, if_neg hne]
      simp only [String.append_assoc]

/-! ## Wrap and Augment on a structured error -/

/-- C1, the code at the failing inputs.  `sampleNotFound` has category
"not_found" and `Wrap(sampleNotFound, nil)` has the empty string as category.
`sampleDiskFull`, the structured error that `Propagate` builds from the plain
error "disk full", has that plain error as cause and category
"internal_service"; `Wrap(sampleDiskFull, nil)` has neither a cause nor a
category.  So category and cause of the result of `Wrap` do not equal those of
its argument: the struct literal of `addParams` copies `Code`, `Message`,
`Params` and `IsRetryable` and leaves `TypeCode` and `cause` out. -/
theorem C1_Wrap_drops_category_and_cause :
    sampleNotFound.TypeCode = "not_found" ∧
      Wrap (.iris sampleNotFound) none =
        .iris (.mk "" "not_found.user" "no such user" sampleIdCtx (some false) .nil) ∧
      sampleDiskFull.TypeCode = "internal_service" ∧
      sampleDiskFull.cause = .other "disk full" ∧
      Wrap (.iris sampleDiskFull) none =
        .iris (.mk "" "internal_service" "disk full" (some ∅) (some true) .nil) ∧
      ¬ ∃ r, Wrap (.iris sampleDiskFull) none = .iris r ∧
          r.TypeCode = sampleDiskFull.TypeCode ∧ r.Code = sampleDiskFull.Code ∧
          r.Message = sampleDiskFull.Message ∧
          r.IsRetryable = sampleDiskFull.IsRetryable ∧
          r.cause = sampleDiskFull.cause := by
  have hw : Wrap (.iris sampleDiskFull) none =
      .iris (.mk "" "internal_service" "disk full" (some ∅) (some true) .nil) := by rfl
  refine ⟨by decide, by rfl, by decide, rfl, hw, ?_⟩
  rintro ⟨r, hr, -, -, -, -, hc⟩
  rw [hw] at hr
  injection hr with hr
  subst hr
  have hc2 : sampleDiskFull.cause = .other "disk full" := rfl
  rw [hc2] at hc
  simp [IrisError.cause] at hc

/-- C2.  For every structured error `e`, message `m` and context map `ctx`,
`Augment(e, m, ctx)` is a structured error with the code of `e`, message `m`, a
context that is not `nil` and reads at every key as the context of `e` overlaid
with `ctx` (`ctx` wins), cause `e`, and the same `Retryable()` as `e`.  On the
example `NotFound("user", "no such user", {id: 42})` augmented with "while
loading profile" and `{request_id: r1}` the result has code "not_found.user",
that message, the context `{id: 42, request_id: r1}` and is not retryable. -/
theorem C2_Augment_structured :
    (∀ (e : IrisError) (m : String) (ctx : GoMap),
      ∃ r pm, Augment (.iris e) m ctx = .iris r ∧ r.Code = e.Code ∧ r.Message = m ∧
        r.Params = some pm ∧ (∀ k, pm.lookup k = overlayAt e.Params ctx k) ∧
        r.cause = .iris e ∧ r.Retryable = e.Retryable) ∧
    (∃ r, Augment (.iris sampleNotFound) "while loading profile" sampleRequestCtx = .iris r ∧
        r.Code = "not_found.user" ∧ r.Message = "while loading profile" ∧
        r.Params = sampleMergedCtx ∧ r.cause = .iris sampleNotFound ∧
        r.Retryable = false) := by
  constructor
  · intro e m ctx
    refine ⟨_, copyInto (copyInto ∅ e.Params) ctx, rfl, rfl, rfl, rfl, ?_, rfl, ?_⟩
    · intro k
      exact lookup_merged e.Params ctx k
    · rw [Retryable_eq, Retryable_eq]
      rfl
  · exact ⟨_, rfl, by decide, by decide, by rfl, rfl, by decide⟩

/-- C3, the code at the failing input.  `NotFound("user", ...)` has category
"not_found"; augmenting it gives a structured error whose category is the empty
string, and the category is empty for every structured argument of `Augment`. -/
theorem C3_Augment_drops_category :
    sampleNotFound.TypeCode = "not_found" ∧
    (∃ r, sampleAugmented = .iris r ∧ r.TypeCode = "") ∧
    ∀ (e : IrisError) (m : String) (ctx : GoMap),
      ∃ r, Augment (.iris e) m ctx = .iris r ∧ r.TypeCode = "" :=
  ⟨by decide, ⟨_, rfl, rfl⟩, fun _ _ _ => ⟨_, rfl, rfl⟩⟩

/-! ## Retryability -/

/-- C4.  For every error built by one of the nine constructors (`New` or a
category constructor, any arguments): if its code equals, or starts with
followed by a dot, one of `internal_service`, `timeout`, `unknown`, then
`Retryable()` is true; if its code equals, or starts with followed by a dot, one
of `bad_request`, `forbidden`, `not_found`, `precondition_failed`,
`unauthorized`, then `Retryable()` is false. -/
theorem C4_default_retryability (f : String → String → GoMap → IrisError)
    (hf : f ∈ constructors) (s m : String) (p : GoMap) :
    (∀ cat ∈ retryableCodes,
        hasDottedPrefix (f s m p).Code cat = true → (f s m p).Retryable = true) ∧
    (∀ cat ∈ nonRetryableCategories,
        hasDottedPrefix (f s m p).Code cat = true → (f s m p).Retryable = false) := by
  obtain ⟨t, c, hfe⟩ := constructors_factory hf s m p
  rw [hfe, errorFactory_Retryable]
  exact ⟨fun cat hcat h => retryable_of_HasPrefix hcat (HasPrefix_of_dotted h),
    fun cat hcat h => not_retryable_of_HasPrefix hcat (HasPrefix_of_dotted h)⟩

/-- C4 at `Timeout("db", "slow", nil)`, whose code "timeout.db" starts with
"timeout.", and at `NotFound("user", "no such user", nil)`, whose code starts
with "not_found.". -/
theorem C4_default_retryability_witness :
    Timeout ∈ constructors ∧
      hasDottedPrefix (Timeout "db" "slow" none).Code "timeout" = true ∧
      (Timeout "db" "slow" none).Retryable = true ∧
      NotFound ∈ constructors ∧
      hasDottedPrefix (NotFound "user" "no such user" none).Code "not_found" = true ∧
      (NotFound "user" "no such user" none).Retryable = false :=
  ⟨by simp [constructors], by decide,
   (C4_default_retryability Timeout (by simp [constructors]) "db" "slow" none).1 "timeout"
     (by simp [retryableCodes, ERROR_TIMEOUT]) (by decide),
   by simp [constructors], by decide,
   (C4_default_retryability NotFound (by simp [constructors]) "user" "no such user" none).2
     "not_found" (by simp [nonRetryableCategories, ERROR_NOT_FOUND]) (by decide)⟩

/-- C5.  When the retryable flag of a structured error `e` is explicitly set to
`b`, then `Wrap(e, ctx)`, `Augment(e, m, ctx)`, `Propagate(e)` and
`NewInternalWithCause(e, m, ctx, sub)` all have `Retryable() == b`.  In
particular `NewInternalWithCause` on a `BadRequest(...)` cause gives an error of
category `internal_service`, with a code that starts with `internal_service`,
that is not retryable. -/
theorem C5_explicit_retryability_inherited :
    (∀ (e : IrisError) (b : Bool), e.IsRetryable = some b →
      ∀ (m : String) (ctx : GoMap) (sub : String),
        (∃ r, Wrap (.iris e) ctx = .iris r ∧ r.Retryable = b) ∧
        (∃ r, Augment (.iris e) m ctx = .iris r ∧ r.Retryable = b) ∧
        (∃ r, Propagate (.iris e) = .iris r ∧ r.Retryable = b) ∧
        (NewInternalWithCause (.iris e) m ctx sub).Retryable = b) ∧
    (∀ (s m0 : String) (ctx0 : GoMap) (m : String) (ctx : GoMap) (sub : String),
      (NewInternalWithCause (.iris (BadRequest s m0 ctx0)) m ctx sub).TypeCode
          = "internal_service" ∧
        HasPrefix (NewInternalWithCause (.iris (BadRequest s m0 ctx0)) m ctx sub).Code
          "internal_service" = true ∧
        (NewInternalWithCause (.iris (BadRequest s m0 ctx0)) m ctx sub).Retryable = false) := by
  constructor
  · intro e b h m ctx sub
    refine ⟨⟨_, rfl, ?_⟩, ⟨_, rfl, ?_⟩, ⟨_, rfl, ?_⟩, ?_⟩
    · exact Retryable_of_flag (by simpa [addParams, IrisError.IsRetryable] using h)
    · exact Retryable_of_flag (by simpa [IrisError.IsRetryable] using h)
    · exact Retryable_of_flag h
    · exact Retryable_of_flag (NewInternalWithCause_flag e b h m ctx sub)
  · intro s m0 ctx0 m ctx sub
    have hf := BadRequest_flag s m0 ctx0
    have hpos : ERROR_INTERNAL_SERVICE.length > 0 := by decide
    refine ⟨?_, ?_, Retryable_of_flag (NewInternalWithCause_flag _ false hf m ctx sub)⟩
    · simp only [NewInternalWithCause, hf]
      rw [errorFactory_eq]; rfl
    · simp only [NewInternalWithCause, hf]
      rw [errorFactory_eq]
      simp only [IrisError.setCause, IrisError.setIsRetryable, IrisError.Code,
        errCode_length_pos _ sub hpos, if_true]
      exact HasPrefix_errCode _ sub hpos

/-- C5 at `e = BadRequest("missing_param", "no id", nil)`, whose flag is stored
as false: the internal error built on it with sub-code "db" is not retryable,
although its code "internal_service.db" alone would make it retryable. -/
theorem C5_explicit_retryability_inherited_witness :
    (BadRequest "missing_param" "no id" none).IsRetryable = some false ∧
      (NewInternalWithCause (.iris (BadRequest "missing_param" "no id" none))
        "while saving" none "db").Retryable = false ∧
      hasRetryablePrefix (NewInternalWithCause (.iris (BadRequest "missing_param" "no id" none))
        "while saving" none "db").Code = true :=
  ⟨by decide,
   (C5_explicit_retryability_inherited.1 (BadRequest "missing_param" "no id" none) false
     (by decide) "while saving" none "db").2.2.2,
   by decide⟩

/-! ## Walking and rendering the causal chain -/

/-- C6.  `Is(err, cs...)` is true exactly when one of the structured links met
on the walk from `err` through successive causes, up to the first link that is
`nil` or not structured, has a code that starts with the dot-joined `cs`.  It is
false for `nil` and for an error that is not structured, and below a cause that
is not structured nothing is looked at: the answer is then the test on the
links above it.  `Is` is a total function, so the walk ends on every chain. -/
theorem C6_Is_walks_chain :
    (∀ (err : GoError) (cs : List String),
      Is err cs = true ↔
        ∃ l, l ∈ chainLinks err ∧ HasPrefix l.Code (Join cs ".") = true) ∧
    (∀ cs, Is .nil cs = false) ∧
    (∀ msg cs, Is (.other msg) cs = false) ∧
    (∀ t c m p r msg cs,
      Is (.iris (.mk t c m p r (.other msg))) cs = HasPrefix c (Join cs ".")) :=
  ⟨Is_iff_chain, fun _ => rfl, fun _ _ => rfl, fun t c m p r msg cs => by
    rw [Is_iris]; simp [Is]⟩

/-- C7.  For every structured error `p`, `p.Error()` equals the reference
rendering: without a cause the code alone when the message is empty, the
message alone when the code is empty, else code, ": " and message; with a cause
the full code of `p`, then ": " and the message of every structured link from
`p` on, then ": " and the native message of a final error that is not
structured. -/
theorem C7_Error_reference_rendering (p : IrisError) : p.Error = referenceRendering p := by
  obtain ⟨t, c, m, ps, r, cause⟩ := p
  cases cause with
  | nil => rfl
  | other msg =>
    simp only [IrisError.Error, referenceRendering, IrisError.cause, IrisError.Code]
    rw [errorLoop_eq]
  | iris e =>
    simp only [IrisError.Error, referenceRendering, IrisError.cause, IrisError.Code]
    rw [errorLoop_eq]

/-- C8, counterexample.  The rendering of `sampleAugmented`, which is
`Augment(NotFound("user", "no such user", ...), "while loading profile", ...)`,
is "not_found.user: while loading profile: no such user".  It does not start
with "not_found: while loading profile", nor with its category field followed
by ": ", its message, ": " and the rendering of its cause. -/
theorem C8_counterexample_Error_starts_with_code :
    ∃ r, sampleAugmented = .iris r ∧ r.cause = .iris sampleNotFound ∧
      r.Error = "not_found.user: while loading profile: no such user" ∧
      HasPrefix r.Error "not_found: while loading profile" = false ∧
      sampleNotFound.Error = "not_found.user: no such user" ∧
      HasPrefix r.Error (r.TypeCode ++ ": " ++ r.Message ++ ": " ++ sampleNotFound.Error)
        = false :=
  ⟨_, rfl, rfl, by decide, by decide, by decide, by decide⟩

/-- C8, amended.  For every structured error `p` that has a cause, `p.Error()`
is the full dotted code of `p`, followed by ": " and the message of `p`,
followed by ": " and the messages of the links of the cause chain joined by
": " (the message of each structured link, without its code, and the native
message of a final error that is not structured). -/
theorem C8_Error_with_cause (p : IrisError) (h : p.cause ≠ .nil) :
    p.Error = p.Code ++ ": " ++ p.Message ++ ": " ++ Join (chainMessages p.cause) ": " := by
  obtain ⟨t, c, m, ps, r, cause⟩ := p
  simp only [IrisError.cause] at h
  have he : (IrisError.mk t c m ps r cause).Error =
      errorLoop c (.iris (.mk t c m ps r cause)) := by
    cases cause with
    | nil => exact absurd rfl h
    | other msg => rfl
    | iris e => rfl
  rw [he]
  simp only [errorLoop, IrisError.Code, IrisError.Message, IrisError.cause]
  exact errorLoop_messages _ cause h

/-- C8 amended, at the augmented not-found error: its cause is `sampleNotFound`
and its rendering is "not_found.user: while loading profile: no such user". -/
theorem C8_Error_with_cause_witness :
    sampleAugmented = .iris (.mk "" "not_found.user" "while loading profile" sampleMergedCtx
        (some false) (.iris sampleNotFound)) ∧
    (IrisError.mk "" "not_found.user" "while loading profile" sampleMergedCtx (some false)
        (.iris sampleNotFound)).cause ≠ .nil ∧
      (IrisError.mk "" "not_found.user" "while loading profile" sampleMergedCtx (some false)
        (.iris sampleNotFound)).Error =
        "not_found.user" ++ ": " ++ "while loading profile" ++ ": " ++
          Join (chainMessages (.iris sampleNotFound)) ": " ∧
      Join (chainMessages (.iris sampleNotFound)) ": " = "no such user" :=
  ⟨rfl, by simp [IrisError.cause],
   C8_Error_with_cause
     (.mk "" "not_found.user" "while loading profile" sampleMergedCtx (some false)
       (.iris sampleNotFound))
     (by simp [IrisError.cause]),
   by decide⟩

/-! ## Constructors -/

/-- C9.  For each of the eight category constructors, with category `C`, and
for every sub-code `S`, message `m` and context `ctx`: the result has category
`C`, message `m`, and code `C` when `S` is empty, else `C`, a dot and `S`. -/
theorem C9_category_constructors (cf : String × (String → String → GoMap → IrisError))
    (h : cf ∈ categoryConstructors) (S m : String) (ctx : GoMap) :
    (cf.2 S m ctx).TypeCode = cf.1 ∧ (cf.2 S m ctx).Message = m ∧
      (cf.2 S m ctx).Code = if S = "" then cf.1 else cf.1 ++ "." ++ S := by
  obtain ⟨hpos, hf⟩ := categoryConstructors_factory h
  rw [hf, errorFactory_TypeCode, errorFactory_Message, errorFactory_Code,
    if_pos (errCode_length_pos _ _ hpos), errCode_eq _ _ hpos]
  exact ⟨rfl, rfl, rfl⟩

/-- C9 at `NotFound("user", "no such user", nil)` and at `Timeout("", "slow",
nil)`, which has the bare category as code. -/
theorem C9_category_constructors_witness :
    (ERROR_NOT_FOUND, NotFound) ∈ categoryConstructors ∧
      ((NotFound "user" "no such user" none).TypeCode = "not_found" ∧
        (NotFound "user" "no such user" none).Message = "no such user" ∧
        (NotFound "user" "no such user" none).Code =
          if "user" = "" then "not_found" else "not_found" ++ "." ++ "user") ∧
      (NotFound "user" "no such user" none).Code = "not_found.user" ∧
      (Timeout "" "slow" none).Code = "timeout" :=
  ⟨by simp [categoryConstructors],
   C9_category_constructors (ERROR_NOT_FOUND, NotFound) (by simp [categoryConstructors])
    "user" "no such user" none,
   by decide, by decide⟩

/-- C10, counterexample.  `New("", "boom", nil)` has code "unknown" and its
retryable flag is unset, not stored. -/
theorem C10_counterexample_New_empty_code :
    (New "" "boom" none).IsRetryable = none ∧ (New "" "boom" none).Code = "unknown" ∧
      (New "" "boom" none).cause = .nil :=
  ⟨by decide, by decide, rfl⟩

/-- C10, amended.  Every result of one of the eight category constructors (any
sub-code) and of `New` with a code that is not empty has no cause and has its
retryable flag stored, the stored value being whether the code of the result
has `internal_service`, `timeout` or `unknown` as a prefix.  `New` with the
empty code gives an error without a cause, with code "unknown", whose flag is
unset and whose `Retryable()` is true. -/
theorem C10_constructors_store_flag :
    (∀ cf ∈ categoryConstructors, ∀ (S m : String) (ctx : GoMap),
      (cf.2 S m ctx).cause = .nil ∧
        (cf.2 S m ctx).IsRetryable = some (hasRetryablePrefix (cf.2 S m ctx).Code)) ∧
    (∀ (c m : String) (ctx : GoMap), c ≠ "" →
      (New c m ctx).cause = .nil ∧
        (New c m ctx).IsRetryable = some (hasRetryablePrefix (New c m ctx).Code)) ∧
    (∀ (m : String) (ctx : GoMap),
      (New "" m ctx).cause = .nil ∧ (New "" m ctx).IsRetryable = none ∧
        (New "" m ctx).Code = "unknown" ∧ (New "" m ctx).Retryable = true) := by
  refine ⟨?_, ?_, ?_⟩
  · intro cf h S m ctx
    obtain ⟨hpos, hf⟩ := categoryConstructors_factory h
    have hl := errCode_length_pos cf.1 S hpos
    rw [hf, errorFactory_cause, errorFactory_IsRetryable, errorFactory_Code, if_pos hl, if_pos hl]
    exact ⟨rfl, rfl⟩
  · intro c m ctx hc
    have hl := length_pos_of_ne_empty hc
    unfold New
    rw [errorFactory_cause, errorFactory_IsRetryable, errorFactory_Code, if_pos hl, if_pos hl]
    exact ⟨rfl, rfl⟩
  · intro m ctx
    unfold New
    rw [errorFactory_Retryable, errorFactory_cause, errorFactory_IsRetryable, errorFactory_Code]
    exact ⟨rfl, rfl, rfl, by decide⟩

/-- C10 amended, at `Timeout("db", "slow", nil)` and at `New("timeouts", "slow",
nil)`: both store the flag true. -/
theorem C10_constructors_store_flag_witness :
    (ERROR_TIMEOUT, Timeout) ∈ categoryConstructors ∧
      (Timeout "db" "slow" none).IsRetryable =
        some (hasRetryablePrefix (Timeout "db" "slow" none).Code) ∧
      (Timeout "db" "slow" none).IsRetryable = some true ∧
      "timeouts" ≠ "" ∧
      (New "timeouts" "slow" none).IsRetryable =
        some (hasRetryablePrefix (New "timeouts" "slow" none).Code) ∧
      (New "timeouts" "slow" none).IsRetryable = some true :=
  ⟨by simp [categoryConstructors],
   (C10_constructors_store_flag.1 (ERROR_TIMEOUT, Timeout)
      (by simp [categoryConstructors]) "db" "slow" none).2,
   by decide, by decide,
   (C10_constructors_store_flag.2.1 "timeouts" "slow" none (by decide)).2,
   by decide⟩

/-! ## Further facts used by the chain operations -/

theorem mem_keysOf (m : GoMap) (k : String) :
    k ∈ keysOf m ↔ (lookupIn m k).isSome = true := by
  cases m with
  | none => simp [keysOf, lookupIn]
  | some a =>
    simp only [keysOf, lookupIn]
    rw [AList.lookup_isSome]
    exact AList.mem_keys.symm

theorem mem_keys_merged (old new : GoMap) (k : String) :
    k ∈ (copyInto (copyInto ∅ old) new).keys ↔ k ∈ keysOf old ∨ k ∈ keysOf new := by
  rw [mem_keysOf, mem_keysOf, ← AList.mem_keys, ← AList.lookup_isSome, lookup_merged]
  unfold overlayAt
  cases lookupIn new k <;> cases lookupIn old k <;> simp

theorem HasPrefix_iff_append (s pre : String) :
    HasPrefix s pre = true ↔ ∃ rest : String, s = pre ++ rest := by
  rw [HasPrefix_iff]
  constructor
  · rintro ⟨t, ht⟩
    refine ⟨⟨t⟩, ?_⟩
    apply String.ext
    rw [String.data_append, ht]
  · rintro ⟨rest, rfl⟩
    rw [String.data_append]
    exact List.prefix_append _ _

/-- The value of `NewInternalWithCause(o, m, ctx, "")` for an error `o` that is
not structured, field by field. -/
theorem NewInternalWithCause_other (msg m : String) (ctx : GoMap) :
    NewInternalWithCause (.other msg) m ctx "" =
      .mk "internal_service" "internal_service" m
        (some (match ctx with
               | some a => a
               | none => ∅))
        (some true) (.other msg) := by
  simp only [NewInternalWithCause]
  rw [errorFactory_eq]
  have h1 : errCode ERROR_INTERNAL_SERVICE "" = "internal_service" := by decide
  have h2 : "internal_service".length > 0 := by decide
  have h3 : hasRetryablePrefix "internal_service" = true := by decide
  rw [h1, if_pos h2, if_pos h2, h3]
  rfl

theorem NewInternalWithCause_cause (err : GoError) (m : String) (ctx : GoMap) (sub : String) :
    (NewInternalWithCause err m ctx sub).cause = err := by
  unfold NewInternalWithCause
  rw [errorFactory_eq]
  cases err with
  | nil => rfl
  | other msg => rfl
  | iris e =>
    cases h : e.IsRetryable <;>
      simp [h, IrisError.setCause, IrisError.setIsRetryable, IrisError.cause]

theorem Is_of_PrefixMatches {e : IrisError} {cs : List String}
    (h : e.PrefixMatches cs = true) : Is (.iris e) cs = true := by
  obtain ⟨t, c, m, p, r, cause⟩ := e
  rw [Is_iris, Bool.or_eq_true]
  exact Or.inl h

theorem Is_of_cause {e : IrisError} {cs : List String}
    (h : Is e.cause cs = true) : Is (.iris e) cs = true := by
  obtain ⟨t, c, m, p, r, cause⟩ := e
  rw [Is_iris, Bool.or_eq_true]
  exact Or.inr h

theorem BadRequest_Code_HasPrefix (s m : String) (p : GoMap) :
    HasPrefix (BadRequest s m p).Code "bad_request" = true := by
  have hpos : ERROR_BAD_REQUEST.length > 0 := by decide
  unfold BadRequest
  rw [errorFactory_Code, if_pos (errCode_length_pos _ _ hpos)]
  exact HasPrefix_errCode _ s hpos

/-! ## Context merging, and propagating no error or a structured error -/

/-- C11.  For every structured error `e` and context map `ctx` (possibly
`nil`), `Wrap(e, ctx)` is a structured error whose context is not `nil` and has
as keys exactly the keys of the context of `e` together with the keys of `ctx`;
it reads at every key as the context of `e` overlaid with `ctx`: every key of
`ctx` maps to the value in `ctx`, every key that `ctx` does not have keeps the
value it has in the context of `e`. -/
theorem C11_Wrap_merges_context (e : IrisError) (ctx : GoMap) :
    ∃ r pm, Wrap (.iris e) ctx = .iris r ∧ r.Params = some pm ∧
      (∀ k, k ∈ pm.keys ↔ k ∈ keysOf e.Params ∨ k ∈ keysOf ctx) ∧
      (∀ k, pm.lookup k = overlayAt e.Params ctx k) ∧
      (∀ k v, lookupIn ctx k = some v → pm.lookup k = some v) ∧
      (∀ k, k ∉ keysOf ctx → pm.lookup k = lookupIn e.Params k) := by
  refine ⟨addParams e ctx, copyInto (copyInto ∅ e.Params) ctx, rfl, rfl,
    mem_keys_merged e.Params ctx, lookup_merged e.Params ctx, ?_, ?_⟩
  · intro k v h
    rw [lookup_merged, overlayAt, h]
  · intro k h
    rw [mem_keysOf] at h
    rw [lookup_merged, overlayAt]
    cases hl : lookupIn ctx k with
    | none => rfl
    | some v => simp [hl] at h

/-- C11 at `Wrap(NotFound("user", "no such user", {id: 42}), {request_id: r1})`:
the key `request_id` of the incoming context has its value "r1", and the key
`id`, which the incoming context does not have, keeps "42". -/
theorem C11_Wrap_merges_context_witness :
    ∃ r pm, Wrap (.iris sampleNotFound) sampleRequestCtx = .iris r ∧ r.Params = some pm ∧
      lookupIn sampleRequestCtx "request_id" = some "r1" ∧ pm.lookup "request_id" = some "r1" ∧
      "id" ∉ keysOf sampleRequestCtx ∧ pm.lookup "id" = lookupIn sampleNotFound.Params "id" ∧
      lookupIn sampleNotFound.Params "id" = some "42" := by
  obtain ⟨r, pm, h1, h2, -, -, h5, h6⟩ := C11_Wrap_merges_context sampleNotFound sampleRequestCtx
  exact ⟨r, pm, h1, h2, by decide, h5 "request_id" "r1" (by decide), by decide,
    h6 "id" (by decide), by decide⟩

/-- C12.  Propagating no error is a no-op: `Wrap(nil, ctx)`,
`WrapWithCode(nil, ctx, c)`, `Propagate(nil)` and `Augment(nil, m, ctx)` are all
`nil`, for every context map `ctx`, category `c` and message `m`. -/
theorem C12_nil_stays_nil (ctx : GoMap) (c m : String) :
    Wrap .nil ctx = .nil ∧ WrapWithCode .nil ctx c = .nil ∧ Propagate .nil = .nil ∧
      Augment .nil m ctx = .nil :=
  ⟨rfl, rfl, rfl, rfl⟩

/-- C13.  For every structured error `e`, `Propagate(e)` is `e` itself, so
category, code, message, context, retryable flag and cause are unchanged, and
the chain of the result has the same links as the chain of `e`. -/
theorem C13_Propagate_structured_identity (e : IrisError) :
    Propagate (.iris e) = .iris e ∧
      chainLinks (Propagate (.iris e)) = chainLinks (.iris e) :=
  ⟨rfl, rfl⟩

/-! ## Chain operations on an error that is not structured -/

/-- C14.  For every error `o` that is not `nil` and not structured,
`Propagate(o)` is a structured error with category "internal_service", code
"internal_service", the message of `o`, an empty context that is not `nil`,
cause `o`, and `Retryable()` true; so for `o` with message "disk full". -/
theorem C14_Propagate_plain_error :
    (∀ msg : String,
      ∃ r, Propagate (.other msg) = .iris r ∧ r.TypeCode = "internal_service" ∧
        r.Code = "internal_service" ∧ r.Message = msg ∧ r.Params = some ∅ ∧
        r.cause = .other msg ∧ r.Retryable = true) ∧
    Propagate (.other "disk full") =
      .iris (.mk "internal_service" "internal_service" "disk full" (some ∅) (some true)
        (.other "disk full")) := by
  refine ⟨fun msg => ⟨_, rfl, ?_⟩, by rfl⟩
  rw [NewInternalWithCause_other]
  exact ⟨rfl, rfl, rfl, rfl, rfl, rfl⟩

/-- C15.  For every error `o` that is not `nil` and not structured, every
context map `ctx` and every category string `c` that is not empty,
`WrapWithCode(o, ctx, c)` is a structured error with category `c`, code `c`, the
message of `o`, context `ctx` (empty when `ctx` is `nil`) and no cause; and
`Wrap(err, ctx)` is `WrapWithCode(err, ctx, "internal_service")` for every
error `err`. -/
theorem C15_WrapWithCode_plain_error (msg : String) (ctx : GoMap) (c : String) (hc : c ≠ "") :
    (∃ r, WrapWithCode (.other msg) ctx c = .iris r ∧ r.TypeCode = c ∧ r.Code = c ∧
        r.Message = msg ∧
        r.Params = some (match ctx with
                         | some a => a
                         | none => ∅) ∧
        r.cause = .nil) ∧
      ∀ (err : GoError) (ctx2 : GoMap),
        Wrap err ctx2 = WrapWithCode err ctx2 "internal_service" := by
  refine ⟨⟨_, rfl, ?_⟩, fun _ _ => rfl⟩
  rw [errorFactory_eq, if_pos (length_pos_of_ne_empty hc)]
  exact ⟨rfl, rfl, rfl, rfl, rfl⟩

/-- C15 at the plain error "deadline exceeded", the context `{id: 42}` and the
category "timeout". -/
theorem C15_WrapWithCode_plain_error_witness :
    "timeout" ≠ "" ∧
      WrapWithCode (.other "deadline exceeded") sampleIdCtx "timeout" =
        .iris (.mk "timeout" "timeout" "deadline exceeded" sampleIdCtx (some true) .nil) ∧
      ∃ r, WrapWithCode (.other "deadline exceeded") sampleIdCtx "timeout" = .iris r ∧
        r.TypeCode = "timeout" ∧ r.Code = "timeout" ∧ r.Message = "deadline exceeded" ∧
        r.Params = some (match sampleIdCtx with
                         | some a => a
                         | none => ∅) ∧
        r.cause = .nil :=
  ⟨by decide, by rfl,
   (C15_WrapWithCode_plain_error "deadline exceeded" sampleIdCtx "timeout" (by decide)).1⟩

/-- C16.  For every error `o` that is not `nil` and not structured, every
message `m` and context map `ctx`, `Augment(o, m, ctx)` is a structured error
with category and code "internal_service", message `m`, context `ctx` (empty
when `ctx` is `nil`), cause `o` and `Retryable()` true; with `ctx` `nil` it is
`Propagate(o)` with the message replaced by `m`. -/
theorem C16_Augment_plain_error (msg m : String) (ctx : GoMap) :
    (∃ r, Augment (.other msg) m ctx = .iris r ∧ r.TypeCode = "internal_service" ∧
        r.Code = "internal_service" ∧ r.Message = m ∧
        r.Params = some (match ctx with
                         | some a => a
                         | none => ∅) ∧
        r.cause = .other msg ∧ r.Retryable = true) ∧
      ∃ q, Propagate (.other msg) = .iris q ∧
        Augment (.other msg) m none =
          .iris (.mk q.TypeCode q.Code m q.Params q.IsRetryable q.cause) := by
  refine ⟨⟨_, rfl, ?_⟩, ⟨_, rfl, ?_⟩⟩
  · rw [NewInternalWithCause_other]
    exact ⟨rfl, rfl, rfl, rfl, rfl, rfl⟩
  · simp only [Augment]
    rw [NewInternalWithCause_other, NewInternalWithCause_other]
    rfl

/-! ## Matching -/

/-- C17.  A wrapped cause stays testable with `Is`: when the code of a
structured error `e` starts with the dot-joined `cs`, then
`Is(Augment(e, m, ctx), cs...)` and `Is(NewInternalWithCause(e, m, ctx, sub),
cs...)` are true for every `m`, `ctx` and `sub`.  In particular
`Is(Augment(BadRequest(s, m0, ctx0), m, ctx), "bad_request")` is true. -/
theorem C17_wrapped_cause_testable :
    (∀ (e : IrisError) (cs : List String), HasPrefix e.Code (Join cs ".") = true →
      ∀ (m : String) (ctx : GoMap) (sub : String),
        Is (Augment (.iris e) m ctx) cs = true ∧
        Is (.iris (NewInternalWithCause (.iris e) m ctx sub)) cs = true) ∧
    (∀ (s m0 : String) (ctx0 : GoMap) (m : String) (ctx : GoMap),
      Is (Augment (.iris (BadRequest s m0 ctx0)) m ctx) ["bad_request"] = true) := by
  have key : ∀ (e : IrisError) (cs : List String), HasPrefix e.Code (Join cs ".") = true →
      ∀ (m : String) (ctx : GoMap) (sub : String),
        Is (Augment (.iris e) m ctx) cs = true ∧
        Is (.iris (NewInternalWithCause (.iris e) m ctx sub)) cs = true := by
    intro e cs h m ctx sub
    constructor
    · exact Is_of_PrefixMatches h
    · apply Is_of_cause
      rw [NewInternalWithCause_cause]
      exact Is_of_PrefixMatches h
  exact ⟨key, fun s m0 ctx0 m ctx =>
    (key _ ["bad_request"] (BadRequest_Code_HasPrefix s m0 ctx0) m ctx "").1⟩

/-- C17 at `e = BadRequest("missing_param", "no id", nil)` and the single part
"bad_request": the augmented error matches at its own code, the internal
error with sub-code "db" matches through its cause. -/
theorem C17_wrapped_cause_testable_witness :
    HasPrefix (BadRequest "missing_param" "no id" none).Code (Join ["bad_request"] ".") = true ∧
      Is (Augment (.iris (BadRequest "missing_param" "no id" none)) "while saving" none)
        ["bad_request"] = true ∧
      Is (.iris (NewInternalWithCause (.iris (BadRequest "missing_param" "no id" none))
        "while saving" none "db")) ["bad_request"] = true ∧
      HasPrefix (NewInternalWithCause (.iris (BadRequest "missing_param" "no id" none))
        "while saving" none "db").Code "bad_request" = false :=
  ⟨by decide,
   (C17_wrapped_cause_testable.1 (BadRequest "missing_param" "no id" none) ["bad_request"]
     (by decide) "while saving" none "db").1,
   (C17_wrapped_cause_testable.1 (BadRequest "missing_param" "no id" none) ["bad_request"]
     (by decide) "while saving" none "db").2,
   by decide⟩

/-- C18.  For every structured error `e` and every list of parts `ps`, the
method `e.PrefixMatches(ps...)` and the free function `PrefixMatches(e, ps...)`
are true exactly when the code of `e` is the parts joined by "." followed by
some rest; so passing the parts separately is the same as passing the joined
string, as in `PrefixMatches(e, "bad_request", "missing_param")` and
`PrefixMatches(e, "bad_request.missing_param")`. -/
theorem C18_PrefixMatches_joined (e : IrisError) (ps : List String) :
    (e.PrefixMatches ps = true ↔ ∃ rest : String, e.Code = Join ps "." ++ rest) ∧
    (PrefixMatches (.iris e) ps = true ↔ ∃ rest : String, e.Code = Join ps "." ++ rest) ∧
    e.PrefixMatches ps = e.PrefixMatches [Join ps "."] ∧
    PrefixMatches (.iris e) ps = PrefixMatches (.iris e) [Join ps "."] ∧
    PrefixMatches (.iris e) ["bad_request", "missing_param"] =
      PrefixMatches (.iris e) ["bad_request.missing_param"] := by
  refine ⟨?_, ?_, rfl, ?_, ?_⟩
  · exact HasPrefix_iff_append _ _
  · rw [(PrefixMatches_iris e ps).2]
    exact HasPrefix_iff_append _ _
  · rw [(PrefixMatches_iris e ps).2, (PrefixMatches_iris e _).2]
    rfl
  · rw [(PrefixMatches_iris e _).2, (PrefixMatches_iris e _).2]
    rfl

/-- C19, the code at the failing input.  For the plain error "disk full", which
is not structured, `PrefixMatches(err, "internal_service")` and
`Matches(err, "disk")` are true, and the former is true for every plain error:
the free functions first turn the error into an `internal_service` error with
`Wrap(err, nil)`.  Only for `nil` do both functions always return false. -/
theorem C19_plain_error_matches :
    PrefixMatches (.other "disk full") ["internal_service"] = true ∧
    Matches (.other "disk full") "disk" = true ∧
    (∀ msg, PrefixMatches (.other msg) ["internal_service"] = true) ∧
    (∀ s ps, Matches .nil s = false ∧ PrefixMatches .nil ps = false) := by
  refine ⟨by decide, by decide, ?_, fun _ _ => ⟨rfl, rfl⟩⟩
  intro msg
  have h : Wrap (.other msg) none =
      .iris (errorFactory ERROR_INTERNAL_SERVICE ERROR_INTERNAL_SERVICE msg none) := rfl
  simp only [PrefixMatches, h, IrisError.PrefixMatches]
  rw [errorFactory_Code]
  decide

/-- C20, the code at the failing input.  The augmented not-found error renders
as "not_found.user: while loading profile: no such user", which contains "no
such user", and its method `Matches` says so; the free function `Matches` on
the same error and string returns false, because it renders the copy made by
`Wrap(err, nil)`, which has no cause.  On a structured error without a cause
the free function and the method agree. -/
theorem C20_free_Matches_ignores_chain :
    (∃ r, sampleAugmented = .iris r ∧
      r.Error = "not_found.user: while loading profile: no such user" ∧
      Contains r.Error "no such user" = true ∧
      r.Matches "no such user" = true ∧
      Matches (.iris r) "no such user" = false) ∧
    (∀ (t c m : String) (p : GoMap) (r : Option Bool) (s : String),
      Matches (.iris (.mk t c m p r .nil)) s = (IrisError.mk t c m p r .nil).Matches s) :=
  ⟨⟨_, rfl, by decide, by decide, by decide, by decide⟩, fun _ _ _ _ _ _ => rfl⟩


/-! ## Status codes -/

theorem statusCode_other (c : String) (h : c ∉ mappedCategories) :
    Goservice.ErrorCodeToStatusCode c = 500 := by
  simp only [mappedCategories, List.mem_cons, List.mem_singleton, List.not_mem_nil, or_false,
    not_or] at h
  obtain ⟨h1, h2, h3, h4, h5, h6, h7, h8⟩ := h
  have e1 : (c == "bad_request") = false := beq_eq_false_iff_ne.mpr h1
  have e2 : (c == "bad_response") = false := beq_eq_false_iff_ne.mpr h2
  have e3 : (c == "forbidden") = false := beq_eq_false_iff_ne.mpr h3
  have e4 : (c == "internal_service") = false := beq_eq_false_iff_ne.mpr h4
  have e5 : (c == "not_found") = false := beq_eq_false_iff_ne.mpr h5
  have e6 : (c == "precondition_failed") = false := beq_eq_false_iff_ne.mpr h6
  have e7 : (c == "timeout") = false := beq_eq_false_iff_ne.mpr h7
  have e8 : (c == "unauthorized") = false := beq_eq_false_iff_ne.mpr h8
  simp only [Goservice.ErrorCodeToStatusCode, Goservice.mapErrorStatusToHttp, List.lookup,
    Goservice.ERROR_BAD_REQUEST, Goservice.ERROR_BAD_RESPONSE, Goservice.ERROR_FORBIDDEN,
    Goservice.ERROR_INTERNAL_SERVICE, Goservice.ERROR_NOT_FOUND,
    Goservice.ERROR_PRECONDITION_FAILED, Goservice.ERROR_TIMEOUT,
    Goservice.ERROR_UNAUTHORIZED, e1, e2, e3, e4, e5, e6, e7, e8, StatusInternalServerError]

/-- C22.  `ErrorCodeToStatusCode` is 400 for bad_request, 406 for
bad_response, 403 for forbidden, 500 for internal_service, 404 for not_found,
412 for precondition_failed, 504 for timeout, 401 for unauthorized, and 500 for
every other string, among them "unknown" and the empty string; the copy in
package `goservice` and the copy in package `httpHandler` agree on every
input. -/
theorem C22_status_codes :
    (Goservice.ErrorCodeToStatusCode "bad_request" = 400 ∧
      Goservice.ErrorCodeToStatusCode "bad_response" = 406 ∧
      Goservice.ErrorCodeToStatusCode "forbidden" = 403 ∧
      Goservice.ErrorCodeToStatusCode "internal_service" = 500 ∧
      Goservice.ErrorCodeToStatusCode "not_found" = 404 ∧
      Goservice.ErrorCodeToStatusCode "precondition_failed" = 412 ∧
      Goservice.ErrorCodeToStatusCode "timeout" = 504 ∧
      Goservice.ErrorCodeToStatusCode "unauthorized" = 401) ∧
    (∀ c : String, c ∉ mappedCategories → Goservice.ErrorCodeToStatusCode c = 500) ∧
    Goservice.ErrorCodeToStatusCode "unknown" = 500 ∧
    Goservice.ErrorCodeToStatusCode "" = 500 ∧
    (∀ c : String, Goservice.ErrorCodeToStatusCode c = HttpHandler.ErrorCodeToStatusCode c) :=
  ⟨⟨by decide, by decide, by decide, by decide, by decide, by decide, by decide, by decide⟩,
   statusCode_other, by decide, by decide, fun _ => rfl⟩

/-- C22 at the string "teapot", which is none of the eight mapped categories. -/
theorem C22_status_codes_witness :
    "teapot" ∉ mappedCategories ∧ Goservice.ErrorCodeToStatusCode "teapot" = 500 ∧
      HttpHandler.ErrorCodeToStatusCode "teapot" = 500 :=
  ⟨by decide, C22_status_codes.2.1 "teapot" (by decide), by decide⟩


/-! ## Category and code after construction -/

theorem ne_empty_of_length_pos {c : String} (h : c.length > 0) : c ≠ "" := by
  rintro rfl
  simp at h

theorem errorFactory_Code_ne (t c m : String) (p : GoMap) :
    (errorFactory t c m p).Code ≠ "" := by
  rw [errorFactory_Code]
  by_cases hc : c.length > 0
  · rw [if_pos hc]
    exact ne_empty_of_length_pos hc
  · rw [if_neg hc]
    decide

theorem NewInternalWithCause_Code_TypeCode (err : GoError) (m : String) (p : GoMap)
    (sub : String) :
    (NewInternalWithCause err m p sub).Code ≠ "" ∧
      (NewInternalWithCause err m p sub).TypeCode = "internal_service" := by
  have hpos : ERROR_INTERNAL_SERVICE.length > 0 := by decide
  have hl := errCode_length_pos ERROR_INTERNAL_SERVICE sub hpos
  have hne := ne_empty_of_length_pos hl
  unfold NewInternalWithCause
  rw [errorFactory_eq, if_pos hl]
  cases err with
  | nil => exact ⟨hne, rfl⟩
  | other msg => exact ⟨hne, rfl⟩
  | iris e =>
    cases h : e.IsRetryable <;>
      simp only [h, IrisError.setCause, IrisError.setIsRetryable, IrisError.Code,
        IrisError.TypeCode] <;> exact ⟨hne, rfl⟩

theorem Produced_Code_ne : ∀ (e : IrisError), Produced e → e.Code ≠ "" := by
  intro e h
  induction h with
  | byNew c m p => exact errorFactory_Code_ne _ _ _ _
  | byCategory cf h s m p =>
    rw [(categoryConstructors_factory h).2]
    exact errorFactory_Code_ne _ _ _ _
  | byInternal err m p sub => exact (NewInternalWithCause_Code_TypeCode err m p sub).1
  | wrapPlain msg ctx r h =>
    injection h with h
    subst h
    exact errorFactory_Code_ne _ _ _ _
  | wrapProduced e _ ctx r h ih =>
    injection h with h
    subst h
    exact ih
  | wrapWithCodePlain msg ctx c r h =>
    injection h with h
    subst h
    exact errorFactory_Code_ne _ _ _ _
  | wrapWithCodeProduced e _ ctx c r h ih =>
    injection h with h
    subst h
    exact ih
  | propagatePlain msg r h =>
    injection h with h
    subst h
    exact (NewInternalWithCause_Code_TypeCode _ _ _ _).1
  | propagateProduced e _ r h ih =>
    injection h with h
    subst h
    exact ih
  | augmentPlain msg m ctx r h =>
    injection h with h
    subst h
    exact (NewInternalWithCause_Code_TypeCode _ _ _ _).1
  | augmentProduced e _ m ctx r h ih =>
    injection h with h
    subst h
    exact ih

/-- C21, counterexample.  `New("", "boom", nil)` is produced by the library and
has the empty string as category, with code "unknown". -/
theorem C21_counterexample_New_empty_category :
    Produced (New "" "boom" none) ∧ (New "" "boom" none).TypeCode = "" ∧
      (New "" "boom" none).Code = "unknown" :=
  ⟨Produced.byNew _ _ _, by decide, by decide⟩

/-- C21, amended.  Every structured error that the library produces has a code
that is not empty.  The category is not empty for the results of the category
constructors, of `NewInternalWithCause`, of `New` with a code that is not
empty, of `Wrap`, `Propagate` and `Augment` applied to an error that is not
structured, of `WrapWithCode` applied to such an error with a category that is
not empty, and of `Propagate` applied to a structured error whose category is
not empty.  `New` with the empty code, and `WrapWithCode` of an error that is
not structured with the empty category, give the empty category and the code
"unknown". -/
theorem C21_code_and_category_not_empty :
    (∀ e : IrisError, Produced e → e.Code ≠ "") ∧
    (∀ cf ∈ categoryConstructors, ∀ (s m : String) (p : GoMap), (cf.2 s m p).TypeCode ≠ "") ∧
    (∀ (err : GoError) (m : String) (p : GoMap) (sub : String),
      (NewInternalWithCause err m p sub).TypeCode ≠ "") ∧
    (∀ (c m : String) (p : GoMap), c ≠ "" → (New c m p).TypeCode ≠ "") ∧
    (∀ (msg m : String) (ctx : GoMap),
      (∃ r, Wrap (.other msg) ctx = .iris r ∧ r.TypeCode ≠ "") ∧
      (∃ r, Propagate (.other msg) = .iris r ∧ r.TypeCode ≠ "") ∧
      (∃ r, Augment (.other msg) m ctx = .iris r ∧ r.TypeCode ≠ "")) ∧
    (∀ (msg : String) (ctx : GoMap) (c : String), c ≠ "" →
      ∃ r, WrapWithCode (.other msg) ctx c = .iris r ∧ r.TypeCode ≠ "") ∧
    (∀ e : IrisError, e.TypeCode ≠ "" →
      ∃ r, Propagate (.iris e) = .iris r ∧ r.TypeCode ≠ "") ∧
    (∀ (m : String) (p : GoMap),
      (New "" m p).TypeCode = "" ∧ (New "" m p).Code = "unknown") ∧
    (∀ (msg : String) (ctx : GoMap),
      ∃ r, WrapWithCode (.other msg) ctx "" = .iris r ∧ r.TypeCode = "" ∧
        r.Code = "unknown") := by
  have hint : ("internal_service" : String) ≠ "" := by decide
  refine ⟨Produced_Code_ne, ?_, ?_, ?_, ?_, ?_, ?_, ?_, ?_⟩
  · intro cf h s m p
    obtain ⟨hpos, hf⟩ := categoryConstructors_factory h
    rw [hf, errorFactory_TypeCode]
    exact ne_empty_of_length_pos hpos
  · intro err m p sub
    rw [(NewInternalWithCause_Code_TypeCode err m p sub).2]
    exact hint
  · intro c m p hc
    unfold New
    rw [errorFactory_TypeCode]
    exact hc
  · intro msg m ctx
    refine ⟨⟨_, rfl, ?_⟩, ⟨_, rfl, ?_⟩, ⟨_, rfl, ?_⟩⟩
    · rw [errorFactory_TypeCode]
      exact hint
    · rw [(NewInternalWithCause_Code_TypeCode _ _ _ _).2]
      exact hint
    · rw [(NewInternalWithCause_Code_TypeCode _ _ _ _).2]
      exact hint
  · intro msg ctx c hc
    refine ⟨_, rfl, ?_⟩
    rw [errorFactory_TypeCode]
    exact hc
  · intro e he
    exact ⟨e, rfl, he⟩
  · intro m p
    unfold New
    rw [errorFactory_TypeCode, errorFactory_Code]
    exact ⟨rfl, rfl⟩
  · intro msg ctx
    refine ⟨_, rfl, ?_⟩
    rw [errorFactory_TypeCode, errorFactory_Code]
    exact ⟨rfl, rfl⟩

/-- C21 amended, at the not-found example and the error augmented from it,
which are produced by the library and have codes that are not empty, and at
`New("teapot", ...)`, whose category is "teapot". -/
theorem C21_code_and_category_not_empty_witness :
    Produced sampleNotFound ∧ sampleNotFound.Code ≠ "" ∧
      (∃ r, sampleAugmented = .iris r ∧ Produced r ∧ r.Code ≠ "") ∧
      "teapot" ≠ "" ∧ (New "teapot" "short and stout" none).TypeCode ≠ "" := by
  have h1 : Produced sampleNotFound :=
    Produced.byCategory (ERROR_NOT_FOUND, NotFound) (by simp [categoryConstructors])
      "user" "no such user" sampleIdCtx
  have h2 : ∀ r, sampleAugmented = .iris r → Produced r :=
    fun r hr => Produced.augmentProduced sampleNotFound h1 _ _ r hr
  exact ⟨h1, C21_code_and_category_not_empty.1 _ h1,
    ⟨_, rfl, h2 _ rfl, C21_code_and_category_not_empty.1 _ (h2 _ rfl)⟩,
    by decide, C21_code_and_category_not_empty.2.2.2.1 "teapot" "short and stout" none (by decide)⟩

/-! ## Propagate and Wrap, and retryability by raw prefix -/

/-- C23.  `Propagate(err)` is `nil` exactly when `Wrap(err, nil)` is `nil`.
For a structured `err`, and for an `err` that is not structured, both results
are structured errors with the same code, the same message, contexts that read
the same at every key, and the same `Retryable()`; for an `err` that is not
structured `Propagate` records it as the cause and `Wrap` records no cause. -/
theorem C23_Propagate_replaces_Wrap :
    (∀ err : GoError, Propagate err = .nil ↔ Wrap err none = .nil) ∧
    (∀ e : IrisError,
      ∃ p w, Propagate (.iris e) = .iris p ∧ Wrap (.iris e) none = .iris w ∧
        p.Code = w.Code ∧ p.Message = w.Message ∧
        (∀ k, lookupIn p.Params k = lookupIn w.Params k) ∧ p.Retryable = w.Retryable) ∧
    (∀ msg : String,
      ∃ p w, Propagate (.other msg) = .iris p ∧ Wrap (.other msg) none = .iris w ∧
        p.Code = w.Code ∧ p.Message = w.Message ∧
        (∀ k, lookupIn p.Params k = lookupIn w.Params k) ∧ p.Retryable = w.Retryable ∧
        p.cause = .other msg ∧ w.cause = .nil) := by
  refine ⟨?_, ?_, ?_⟩
  · intro err
    cases err with
    | nil => exact ⟨fun _ => rfl, fun _ => rfl⟩
    | other msg => simp [Propagate, Wrap, WrapWithCode]
    | iris e => simp [Propagate, Wrap, WrapWithCode]
  · intro e
    refine ⟨e, addParams e none, rfl, rfl, rfl, rfl, ?_, ?_⟩
    · intro k
      have h := lookup_merged e.Params none k
      have hp : (addParams e none).Params = some (copyInto (copyInto ∅ e.Params) none) := rfl
      rw [hp]
      simp only [lookupIn]
      rw [h]
      rfl
    · rw [Retryable_eq, Retryable_eq]
      rfl
  · intro msg
    have hw : Wrap (.other msg) none =
        .iris (.mk "internal_service" "internal_service" msg (some ∅) (some true) .nil) := by
      have h2 : "internal_service".length > 0 := by decide
      have h3 : hasRetryablePrefix "internal_service" = true := by decide
      simp only [Wrap, WrapWithCode]
      rw [errorFactory_eq]
      simp only [ERROR_INTERNAL_SERVICE]
      rw [if_pos h2, if_pos h2, h3]
    refine ⟨_, _, rfl, hw, ?_⟩
    rw [NewInternalWithCause_other]
    exact ⟨rfl, rfl, fun _ => rfl, rfl, rfl, rfl⟩

/-- C24.  For every code string `c`, message `m` and context `ctx`,
`New(c, m, ctx).Retryable()` is true exactly when `c` is empty or `c` starts,
as a plain string, with "internal_service", "timeout" or "unknown".  So
`New("timeouts", ...)` and `New("unknown_user", ...)` are retryable, although
neither code equals a retryable category or starts with one followed by a
dot. -/
theorem C24_raw_prefix_retryability :
    (∀ (c m : String) (ctx : GoMap),
      (New c m ctx).Retryable = true ↔
        c = "" ∨ HasPrefix c "internal_service" = true ∨ HasPrefix c "timeout" = true ∨
          HasPrefix c "unknown" = true) ∧
    (New "timeouts" "slow" none).Retryable = true ∧
    (New "unknown_user" "who" none).Retryable = true ∧
    (∀ cat ∈ retryableCodes,
      hasDottedPrefix "timeouts" cat = false ∧ hasDottedPrefix "unknown_user" cat = false) := by
  refine ⟨?_, by decide, by decide, by decide⟩
  intro c m ctx
  unfold New
  rw [errorFactory_Retryable, errorFactory_Code]
  by_cases hc : c.length > 0
  · rw [if_pos hc]
    have hne := ne_empty_of_length_pos hc
    simp [hasRetryablePrefix, retryableCodes, ERROR_INTERNAL_SERVICE, ERROR_TIMEOUT,
      ERROR_UNKNOWN, hne]
  · rw [if_neg hc]
    have he : c = "" := by
      by_contra hne
      exact hc (length_pos_of_ne_empty hne)
    simp [he]
    decide

end Errors
